import Mathlib

/-!
Verification of the Videorecorder recording-session controller
(`src/video_capture.py`) through a shallow embedding in Lean 4.

Conventions of the embedding:
* The filesystem is an association list from file names to the directory
  currently holding them (`none` in `fsLoc` means the file does not exist).
* `shutil.move` / `os.remove` failures are modelled by an error oracle:
  for `safe_move`, `err i = some e` means attempt `i` (0-based, as in
  `for attempt in range(retries)`) raises an exception with message `e`.
* `log(...)` calls are modelled as emitted `LogEvent` values.
* `time.sleep(delay)` calls inside the retry loop are counted.
* Wall-clock time in the recording wait loop is counted in deciseconds,
  matching the `time.sleep(0.1)` poll interval of `_record_worker`.
-/

set_option maxRecDepth 8000

namespace Videorecorder

/-- MAX_RECORD_SECONDS from the CONFIG section of video_capture.py. -/
def MAX_RECORD_SECONDS : Nat := 60

/-- POST_RECORD_TIMEOUT (seconds of the disposition window). -/
def POST_RECORD_TIMEOUT : Int := 30

/-- FALLBACK_VIDEO_DEVICE constant. -/
def FALLBACK_VIDEO_DEVICE : String := "USB Camera"

/-- FALLBACK_AUDIO_DEVICE constant. -/
def FALLBACK_AUDIO_DEVICE : String := "Microphone (USB 2.0 Camera)"

/-- The fixed directories that can hold an artifact. -/
inductive Dir where
  | inbound
  | approved
  | deleteDaily
  deriving DecidableEq, Repr

/-- Filesystem state: which directory currently holds each file name.
A name absent from the list does not exist on disk. -/
abbrev Fs := List (String × Dir)

/-- Directory currently holding file `s` (`none` = file does not exist). -/
def fsLoc (fs : Fs) (s : String) : Option Dir :=
  match fs with
  | [] => none
  | (n, d) :: rest => if n = s then some d else fsLoc rest s

/-- Relocate file `s` to directory `d` (the effect of a successful
`shutil.move(src, dst)` where dst keeps the basename). -/
def fsSet (fs : Fs) (s : String) (d : Dir) : Fs :=
  fs.map (fun p => if p.1 = s then (p.1, d) else p)

/-- The log lines written via `log(...)` that the claims talk about. -/
inductive LogEvent where
  | moved (src : String) (d : Dir)
  | moveAttemptFailed (attempt : Nat) (err : String)
  | failedToMove (src : String)
  | cleanupError (name : String) (err : String)
  | cleanupTotal (n : Nat)
  | recordingFinished (f : Option String)
  | recordingFailed
  deriving DecidableEq, Repr

/-- Result of one `safe_move` call: return value, filesystem after the
call, log lines written, number of `time.sleep(delay)` calls, and number
of `shutil.move` attempts actually performed. -/
structure MoveResult where
  success : Bool
  fs : Fs
  logs : List LogEvent
  sleeps : Nat
  attempts : Nat
  deriving DecidableEq, Repr

/-- The `for attempt in range(retries)` loop of `safe_move` (lines 66-75).
`k` is the number of remaining attempts, `attempt` the 0-based index of
the next attempt.  A failing attempt logs `Move attempt {attempt+1}
failed: {e}` and sleeps; running out of attempts logs `Failed to move`. -/
def moveLoop (err : Nat → Option String) (src : String) (d : Dir) (fs : Fs) :
    Nat → Nat → MoveResult
  | 0, _ =>
    { success := false, fs := fs, logs := [LogEvent.failedToMove src],
      sleeps := 0, attempts := 0 }
  | k + 1, attempt =>
    match err attempt with
    | none =>
      { success := true, fs := fsSet fs src d, logs := [LogEvent.moved src d],
        sleeps := 0, attempts := 1 }
    | some e =>
      let r := moveLoop err src d fs k (attempt + 1)
      { r with logs := LogEvent.moveAttemptFailed (attempt + 1) e :: r.logs,
               sleeps := r.sleeps + 1, attempts := r.attempts + 1 }

/-- Embedding of `safe_move(src, dst_dir, retries=6, delay=0.4)`
(lines 62-75).  `src = none` models Python `src is None`; the guard
`if not src or not os.path.exists(src): return False` exits before any
attempt, sleep or log line. -/
def safe_move (err : Nat → Option String) (src : Option String) (d : Dir)
    (fs : Fs) (retries : Nat) : MoveResult :=
  match src with
  | none =>
    { success := false, fs := fs, logs := [], sleeps := 0, attempts := 0 }
  | some s =>
    if s.isEmpty || (fsLoc fs s).isNone then
      { success := false, fs := fs, logs := [], sleeps := 0, attempts := 0 }
    else moveLoop err s d fs retries 0

/-- Kind of a directory entry seen by `cleanup_delete_daily`
(`os.path.isfile` vs `os.path.isdir`). -/
inductive EntryKind where
  | file
  | dir
  deriving DecidableEq, Repr

/-- One entry of the delete_daily directory: its name, whether it is a
plain file or a subtree, and whether deleting it raises (`some e` = the
`os.remove`/`shutil.rmtree` call raises with message `e`). -/
structure DirEntry where
  name : String
  kind : EntryKind
  delError : Option String
  deriving DecidableEq, Repr

/-- The `for name in os.listdir(...)` loop of `cleanup_delete_daily`
(lines 79-85): returns (removed count, logs, names still present). -/
def cleanupLoop : List DirEntry → Nat × List LogEvent × List String
  | [] => (0, [], [])
  | e :: rest =>
    match e.delError with
    | none =>
      let r := cleanupLoop rest
      (r.1 + 1, r.2.1, r.2.2)
    | some msg =>
      let r := cleanupLoop rest
      (r.1, LogEvent.cleanupError e.name msg :: r.2.1, e.name :: r.2.2)

/-- Embedding of `cleanup_delete_daily()` (lines 77-87): deletes each
entry (file via `os.remove`, subtree via `shutil.rmtree`), logs a
per-item error and continues, then logs the removed total. -/
def cleanup_delete_daily (entries : List DirEntry) :
    Nat × List LogEvent × List String :=
  let r := cleanupLoop entries
  (r.1, r.2.1 ++ [LogEvent.cleanupTotal r.1], r.2.2)

/-- Prefix test on character lists. -/
def isPrefixL : List Char → List Char → Bool
  | [], _ => true
  | _ :: _, [] => false
  | p :: ps, c :: cs => p = c && isPrefixL ps cs

/-- Python `pat in s` substring test, on character lists. -/
def containsSubL (pat : List Char) : List Char → Bool
  | [] => pat.isEmpty
  | c :: cs => isPrefixL pat (c :: cs) || containsSubL pat cs

/-- Python `str.splitlines` on newline separators (the only separator
relevant to ffmpeg stderr here); the empty string yields no lines. -/
def splitLinesAux (acc : List Char) : List Char → List (List Char)
  | [] => if acc.isEmpty then [] else [acc.reverse]
  | c :: cs =>
    if c = '\n' then acc.reverse :: splitLinesAux [] cs
    else splitLinesAux (c :: acc) cs

/-- Split a string into lines. -/
def splitLines (s : String) : List (List Char) :=
  splitLinesAux [] s.data

/-- Whitespace characters handled by Python `str.strip()` here. -/
def isSpaceChar (c : Char) : Bool :=
  c = ' ' || c = '\t' || c = '\r' || c = '\n'

/-- Python `line.strip()`. -/
def trimL (cs : List Char) : List Char :=
  ((cs.dropWhile isSpaceChar).reverse.dropWhile isSpaceChar).reverse

/-- Python `line.startswith(chr(34))`. -/
def startsWithQuote : List Char → Bool
  | '"' :: _ => true
  | _ => false

/-- Python `line.endswith(chr(34))`. -/
def endsWithQuote (cs : List Char) : Bool :=
  startsWithQuote cs.reverse

/-- Python `line.strip(chr(34))`: drop all leading and trailing quote
characters. -/
def stripQuotesL (cs : List Char) : List Char :=
  ((cs.dropWhile (· = '"')).reverse.dropWhile (· = '"')).reverse

/-- Parser mode of `parse_dshow_devices`. -/
inductive DMode where
  | video
  | audio
  deriving DecidableEq, Repr

/-- The line loop of `parse_dshow_devices` (lines 101-112): tracks the
current mode and collects quoted device names. -/
def parseLoop : Option DMode → List (List Char) → List String × List String
  | _, [] => ([], [])
  | mode, line :: rest =>
    let l := trimL line
    if containsSubL "DirectShow video devices".data l then
      parseLoop (some DMode.video) rest
    else if containsSubL "DirectShow audio devices".data l then
      parseLoop (some DMode.audio) rest
    else
      match mode with
      | some m =>
        if startsWithQuote l && endsWithQuote l then
          let r := parseLoop mode rest
          match m with
          | DMode.video => (String.mk (stripQuotesL l) :: r.1, r.2)
          | DMode.audio => (r.1, String.mk (stripQuotesL l) :: r.2)
        else parseLoop mode rest
      | none => parseLoop mode rest

/-- Embedding of `parse_dshow_devices(stderr_text)` (lines 101-112). -/
def parse_dshow_devices (stderrText : String) : List String × List String :=
  parseLoop none (splitLines stderrText)

/-- Embedding of `ffmpeg_list_devices()` (lines 93-99): returns the
subprocess stderr, or the empty string when ffmpeg is missing
(`FileNotFoundError`). -/
def ffmpeg_list_devices (ffmpegFound : Bool) (stderrOutput : String) : String :=
  if ffmpegFound then stderrOutput else ""

/-- Embedding of `detect_devices_once()` (lines 114-119): empty
candidate lists fall back to the hardcoded single-element lists. -/
def detect_devices_once (stderrText : String) : List String × List String :=
  let r := parse_dshow_devices stderrText
  (if r.1.isEmpty then [FALLBACK_VIDEO_DEVICE] else r.1,
   if r.2.isEmpty then [FALLBACK_AUDIO_DEVICE] else r.2)

/-- Persisted configuration (config.json): the two optional device
fields read via `config.get`. -/
structure Config where
  video_device : Option String
  audio_device : Option String
  deriving DecidableEq, Repr

/-- Startup device resolution of `VideoRecorderApp.__init__` (lines
193-196): `config.get(key, candidates[0])`. -/
def startupDevices (cfg : Config) (stderrText : String) : String × String :=
  let r := detect_devices_once stderrText
  (cfg.video_device.getD (r.1.headD ""), cfg.audio_device.getD (r.2.headD ""))

/-- The mutable state of `VideoRecorderApp` that the session claims are
about: the `recording` flag, `current_file`, the post-record countdown
(`post_timeout_left`, whether a `root.after` tick job is pending), the
button states and the status text. -/
structure AppState where
  recording : Bool
  currentFile : Option String
  postTimeoutLeft : Int
  postTimeoutJob : Bool
  startEnabled : Bool
  stopEnabled : Bool
  approveEnabled : Bool
  rejectEnabled : Bool
  playEnabled : Bool
  status : String
  deriving DecidableEq, Repr

/-- The status line `Awaiting approve/reject ({left}s)`. -/
def statusAwaiting (left : Int) : String :=
  "Awaiting approve/reject (" ++ toString left ++ "s)"

/-- Spec-level phase of the Session Controller read off the code state:
`Recording` while the worker flag is set; `AwaitingDisposition` when an
artifact is held and the disposition countdown job is pending; `Idle`
otherwise. -/
inductive Phase where
  | Idle
  | Recording
  | AwaitingDisposition
  deriving DecidableEq, Repr

/-- Phase interpretation of an `AppState`. -/
def phase (s : AppState) : Phase :=
  if s.recording then Phase.Recording
  else if s.currentFile.isSome && s.postTimeoutJob then Phase.AwaitingDisposition
  else Phase.Idle

/-- Embedding of `cancel_post_timeout` (lines 347-352): clears the
pending job and the counter if a job exists, then unconditionally sets
the status to `Ready`. -/
def cancel_post_timeout (s : AppState) : AppState :=
  let s1 :=
    if s.postTimeoutJob then
      { s with postTimeoutJob := false, postTimeoutLeft := 0 }
    else s
  { s1 with status := "Ready" }

/-- Embedding of `start_post_timeout` (lines 329-332): cancel any
pending countdown, reset the counter to the full window, schedule the
first tick, publish the countdown status. -/
def start_post_timeout (s : AppState) : AppState :=
  let s1 := cancel_post_timeout s
  { s1 with postTimeoutLeft := POST_RECORD_TIMEOUT, postTimeoutJob := true,
            status := statusAwaiting POST_RECORD_TIMEOUT }

/-- Output of a controller operation: new app state, filesystem,
number of successful artifact relocations performed, log lines. -/
structure CtrlOut where
  st : AppState
  fs : Fs
  moves : Nat
  logs : List LogEvent
  deriving DecidableEq, Repr

/-- Embedding of `_post_timeout_tick` (lines 334-345): decrement and
display the counter; at `<= 0`, when the artifact is still present move
it to delete_daily (return value of `safe_move` ignored), clear
`current_file`, disable the buttons and cancel; otherwise reschedule. -/
def post_timeout_tick (err : Nat → Option String) (fs : Fs) (s : AppState) :
    CtrlOut :=
  let left := s.postTimeoutLeft - 1
  let s1 := { s with postTimeoutLeft := left, status := statusAwaiting left }
  if left ≤ 0 then
    match s1.currentFile with
    | some f =>
      if !f.isEmpty && (fsLoc fs f).isSome then
        let r := safe_move err (some f) Dir.deleteDaily fs 6
        let s2 := { s1 with currentFile := none, approveEnabled := false,
                            rejectEnabled := false, playEnabled := false }
        { st := cancel_post_timeout s2, fs := r.fs,
          moves := if r.success then 1 else 0, logs := r.logs }
      else
        { st := cancel_post_timeout s1, fs := fs, moves := 0, logs := [] }
    | none =>
      { st := cancel_post_timeout s1, fs := fs, moves := 0, logs := [] }
  else
    { st := { s1 with postTimeoutJob := true }, fs := fs, moves := 0, logs := [] }

/-- Embedding of `reset_post_timeout` (lines 354-355): restart the full
window when `current_file` is set and the file exists, else no-op. -/
def reset_post_timeout (fs : Fs) (s : AppState) : AppState :=
  match s.currentFile with
  | some f =>
    if !f.isEmpty && (fsLoc fs f).isSome then start_post_timeout s else s
  | none => s

/-- Common body of `approve_current` (lines 358-363) and
`reject_current` (lines 364-369), which differ only in the destination
directory: guard on the artifact being present, attempt the move, and
only on success clear `current_file`, disable the buttons and cancel the
countdown. -/
def resolveWith (dst : Dir) (err : Nat → Option String) (fs : Fs)
    (s : AppState) : CtrlOut :=
  match s.currentFile with
  | some f =>
    if !f.isEmpty && (fsLoc fs f).isSome then
      let r := safe_move err (some f) dst fs 6
      if r.success then
        { st := cancel_post_timeout
                  { s with currentFile := none, approveEnabled := false,
                           rejectEnabled := false, playEnabled := false },
          fs := r.fs, moves := 1, logs := r.logs }
      else
        { st := s, fs := r.fs, moves := 0, logs := r.logs }
    else
      { st := s, fs := fs, moves := 0, logs := [] }
  | none =>
    { st := s, fs := fs, moves := 0, logs := [] }

/-- Embedding of `approve_current` (destination APPROVED_DIR). -/
def approve_current : (Nat → Option String) → Fs → AppState → CtrlOut :=
  resolveWith Dir.approved

/-- Embedding of `reject_current` (destination DELETE_DAILY_DIR). -/
def reject_current : (Nat → Option String) → Fs → AppState → CtrlOut :=
  resolveWith Dir.deleteDaily

/-- Embedding of `start_recording_thread` (lines 282-285): when
`self.recording` is set the call returns immediately; otherwise a new
`_record_worker` thread is spawned (second component `true`). -/
def start_recording_thread (s : AppState) : AppState × Bool :=
  if s.recording then (s, false) else (s, true)

/-- Embedding of the tail of `_record_worker` (lines 313-319), entered
after the supervision loop has terminated the encoder: clear the
recording flag, re-enable Start, disable Stop, publish the generic
`Recording finished` status and log it; then, only when `current_file`
names an existing file, enable approve/reject/play and arm the
disposition countdown. -/
def record_worker_tail (fs : Fs) (s : AppState) : CtrlOut :=
  let s1 := { s with recording := false, startEnabled := true,
                     stopEnabled := false, status := "Recording finished" }
  let logs := [LogEvent.recordingFinished s1.currentFile]
  match s1.currentFile with
  | some f =>
    if !f.isEmpty && (fsLoc fs f).isSome then
      { st := start_post_timeout
                { s1 with approveEnabled := true, rejectEnabled := true,
                          playEnabled := true },
        fs := fs, moves := 0, logs := logs }
    else
      { st := s1, fs := fs, moves := 0, logs := logs }
  | none =>
    { st := s1, fs := fs, moves := 0, logs := logs }

/-- The supervision wait loop of `_record_worker` (lines 305-307), with
time counted in deciseconds (one `time.sleep(0.1)` per iteration):
`while self.recording and self.record_proc.poll() is None: if elapsed >=
MAX_RECORD_SECONDS: break; sleep(0.1)`.  `recording t` / `alive t` give
the flag and the process liveness at tick `t`; the result is the tick at
which the loop exits (`none` only if fuel runs out). -/
def recordWaitLoop (recording alive : Nat → Bool) : Nat → Nat → Option Nat
  | 0, _ => none
  | fuel + 1, t =>
    if recording t && alive t then
      if MAX_RECORD_SECONDS * 10 ≤ t then some t
      else recordWaitLoop recording alive fuel (t + 1)
    else some t

/-- The process-control actions `_record_worker` can issue after the
wait loop (lines 308-312): `terminate()` and a bounded
`wait(timeout=2)`, each with exceptions swallowed. -/
inductive SupervisorAct where
  | terminate
  | waitUpTo (secs : Nat)
  | kill
  deriving DecidableEq, Repr

/-- The exact escalation performed after the wait loop (lines 308-312):
when the process is still alive it is asked to terminate and awaited for
at most 2 seconds; nothing else is done. -/
def postLoopEscalation (aliveAfterLoop : Bool) : List SupervisorAct :=
  if aliveAfterLoop then
    [SupervisorAct.terminate, SupervisorAct.waitUpTo 2]
  else []

/-- Whether the external process is still alive once `_record_worker`
has run its post-loop escalation, for a process that is alive at loop
exit and either honours or ignores the terminate request.  No further
action is taken after the bounded wait, so a terminate-ignoring process
stays alive. -/
def processAliveAfterEscalation (aliveAfterLoop honoursTerminate : Bool) :
    Bool :=
  aliveAfterLoop && !honoursTerminate

/-! Concrete fixtures used by counterexamples and witnesses. -/

/-- Error oracle: every move attempt succeeds. -/
def errNone : Nat → Option String := fun _ => none

/-- Error oracle: every move attempt raises (permanently locked file). -/
def errAllLocked : Nat → Option String := fun _ => some "locked"

/-- Error oracle: the first two attempts raise, the third succeeds. -/
def errTransient : Nat → Option String :=
  fun i => if i < 2 then some "locked" else none

/-- A filesystem holding one freshly recorded artifact in inbound. -/
def fsRec1 : Fs := [("recording_1.mp4", Dir.inbound)]

/-- An empty filesystem (the encoder produced no file). -/
def fsEmpty : Fs := []

/-- App state during an active recording of `recording_1.mp4`. -/
def stRecording : AppState :=
  { recording := true, currentFile := some "recording_1.mp4",
    postTimeoutLeft := 0, postTimeoutJob := false,
    startEnabled := false, stopEnabled := true,
    approveEnabled := false, rejectEnabled := false, playEnabled := false,
    status := "Recording..." }

/-- The awaiting-disposition state actually reached by running the
record-worker tail on `stRecording` with the artifact present. -/
def stAwaiting : AppState := (record_worker_tail fsRec1 stRecording).st

/-- The awaiting state with one second left on the countdown. -/
def stLastSecond : AppState := { stAwaiting with postTimeoutLeft := 1 }

/-! Helper lemmas about the retry loop of `safe_move`. -/

/-- A failed `safe_move` retry loop performed all remaining attempts and
left the filesystem untouched. -/
theorem moveLoop_fail_spec (err : Nat → Option String) (src : String) (d : Dir)
    (fs : Fs) :
    ∀ k a, (moveLoop err src d fs k a).success = false →
      (moveLoop err src d fs k a).attempts = k ∧
        (moveLoop err src d fs k a).fs = fs := by
  intro k
  induction k with
  | zero => intro a _; exact ⟨rfl, rfl⟩
  | succ n ih =>
    intro a h
    simp only [moveLoop] at h ⊢
    cases herr : err a with
    | none => rw [herr] at h; simp at h
    | some e =>
      rw [herr] at h
      try dsimp only at h
      try dsimp only
      obtain ⟨h1, h2⟩ := ih (a + 1) h
      simp [h1, h2]

/-- When every attempt in range raises, the retry loop fails. -/
theorem moveLoop_allFail (err : Nat → Option String) (src : String) (d : Dir)
    (fs : Fs) :
    ∀ k a, (∀ i, i < k → (err (a + i)).isSome = true) →
      (moveLoop err src d fs k a).success = false := by
  intro k
  induction k with
  | zero => intro a _; rfl
  | succ n ih =>
    intro a h
    simp only [moveLoop]
    cases herr : err a with
    | none =>
      have h0 := h 0 (Nat.succ_pos n)
      rw [Nat.add_zero, herr] at h0
      simp at h0
    | some e =>
      try dsimp only
      exact ih (a + 1) (fun i hi => by
        have hs := h (i + 1) (Nat.succ_lt_succ hi)
        rwa [show a + (i + 1) = a + 1 + i by omega] at hs)

/-- Every failed attempt that the retry loop performed is logged with
its attempt number and error text. -/
theorem moveLoop_logMem (err : Nat → Option String) (src : String) (d : Dir)
    (fs : Fs) :
    ∀ k a i e, i < (moveLoop err src d fs k a).attempts → err (a + i) = some e →
      LogEvent.moveAttemptFailed (a + i + 1) e ∈ (moveLoop err src d fs k a).logs := by
  intro k
  induction k with
  | zero =>
    intro a i e hi _
    simp [moveLoop] at hi
  | succ n ih =>
    intro a i e hi he
    simp only [moveLoop] at hi ⊢
    cases herr : err a with
    | none =>
      rw [herr] at hi
      try dsimp only at hi
      interval_cases i
      rw [Nat.add_zero, herr] at he
      exact absurd he (by simp)
    | some e0 =>
      rw [herr] at hi
      try dsimp only at hi
      try dsimp only
      cases i with
      | zero =>
        rw [Nat.add_zero, herr] at he
        injection he with he'
        simp [he']
      | succ j =>
        have hj : j < (moveLoop err src d fs n (a + 1)).attempts := by omega
        have he' : err (a + 1 + j) = some e := by
          rwa [show a + (j + 1) = a + 1 + j by omega] at he
        have hm := ih (a + 1) j e hj he'
        simp only [List.mem_cons]
        right
        rwa [show a + (j + 1) + 1 = a + 1 + j + 1 by omega]

/-- Each failed attempt is followed by exactly one back-off sleep. -/
theorem moveLoop_sleeps (err : Nat → Option String) (src : String) (d : Dir)
    (fs : Fs) :
    ∀ k a, ((moveLoop err src d fs k a).success = true →
        (moveLoop err src d fs k a).sleeps + 1
          = (moveLoop err src d fs k a).attempts) ∧
      ((moveLoop err src d fs k a).success = false →
        (moveLoop err src d fs k a).sleeps
          = (moveLoop err src d fs k a).attempts) := by
  intro k
  induction k with
  | zero =>
    intro a
    exact ⟨fun h => by simp [moveLoop] at h, fun _ => rfl⟩
  | succ n ih =>
    intro a
    simp only [moveLoop]
    cases herr : err a with
    | none => exact ⟨fun _ => rfl, fun h => by simp at h⟩
    | some e =>
      try dsimp only
      obtain ⟨ih1, ih2⟩ := ih (a + 1)
      constructor
      · intro h
        have h1 := ih1 h
        omega
      · intro h
        have h1 := ih2 h
        omega

/-- A guarded `safe_move` call runs the retry loop from attempt 0. -/
theorem safe_move_run (err : Nat → Option String) (s : String) (d : Dir)
    (fs : Fs) (h1 : s.isEmpty = false) (h2 : (fsLoc fs s).isSome = true) :
    safe_move err (some s) d fs 6 = moveLoop err s d fs 6 0 := by
  have : (fsLoc fs s).isNone = false := by
    cases h : fsLoc fs s <;> simp [h] at h2 ⊢
  simp [safe_move, h1, this]

/-- A failed `safe_move` leaves the filesystem untouched. -/
theorem safe_move_fail_fs (err : Nat → Option String) (src : Option String)
    (d : Dir) (fs : Fs) (retries : Nat)
    (h : (safe_move err src d fs retries).success = false) :
    (safe_move err src d fs retries).fs = fs := by
  cases src with
  | none => rfl
  | some s =>
    simp only [safe_move] at h ⊢
    by_cases hg : (s.isEmpty || (fsLoc fs s).isNone) = true
    · simp [hg]
    · simp only [Bool.not_eq_true] at hg
      rw [if_neg (by simp [hg])] at h ⊢
      exact (moveLoop_fail_spec err s d fs retries 0 h).2

/-! Helper lemmas about the disposition operations. -/

/-- `cancel_post_timeout` only touches the job, the counter and the
status line. -/
theorem cancel_post_timeout_spec (s : AppState) :
    (cancel_post_timeout s).currentFile = s.currentFile ∧
      (cancel_post_timeout s).recording = s.recording ∧
      (cancel_post_timeout s).approveEnabled = s.approveEnabled ∧
      (cancel_post_timeout s).rejectEnabled = s.rejectEnabled ∧
      (cancel_post_timeout s).playEnabled = s.playEnabled ∧
      (cancel_post_timeout s).postTimeoutJob = false ∧
      (cancel_post_timeout s).status = "Ready" := by
  simp only [cancel_post_timeout]
  split <;> simp_all

/-- `start_post_timeout` arms the full window and preserves the session
fields. -/
theorem start_post_timeout_spec (s : AppState) :
    (start_post_timeout s).currentFile = s.currentFile ∧
      (start_post_timeout s).recording = s.recording ∧
      (start_post_timeout s).approveEnabled = s.approveEnabled ∧
      (start_post_timeout s).rejectEnabled = s.rejectEnabled ∧
      (start_post_timeout s).playEnabled = s.playEnabled ∧
      (start_post_timeout s).postTimeoutJob = true ∧
      (start_post_timeout s).postTimeoutLeft = POST_RECORD_TIMEOUT := by
  simp only [start_post_timeout, cancel_post_timeout]
  split <;> simp

/-- After a disposition has been closed for an artifact: either no
artifact is held, or the held name no longer exists on disk. -/
def dispositionClosed (fs : Fs) (s : AppState) : Prop :=
  match s.currentFile with
  | none => True
  | some f => f.isEmpty = true ∨ fsLoc fs f = none

/-- Resolving with no artifact held (or the file gone) is a no-op. -/
theorem resolveWith_closed (dst : Dir) (err : Nat → Option String) (fs : Fs)
    (s : AppState) (h : dispositionClosed fs s) :
    resolveWith dst err fs s = ⟨s, fs, 0, []⟩ := by
  unfold dispositionClosed at h
  cases hf : s.currentFile with
  | none => simp [resolveWith, hf]
  | some f =>
    simp only [hf] at h
    rcases h with h | h <;> simp [resolveWith, hf, h]

/-- Resetting the countdown with no artifact held (or the file gone) is
a no-op. -/
theorem reset_closed (fs : Fs) (s : AppState) (h : dispositionClosed fs s) :
    reset_post_timeout fs s = s := by
  unfold dispositionClosed at h
  cases hf : s.currentFile with
  | none => simp [reset_post_timeout, hf]
  | some f =>
    simp only [hf] at h
    rcases h with h | h <;> simp [reset_post_timeout, hf, h]

/-- A single resolve performs at most one move. -/
theorem resolveWith_moves_le_one (dst : Dir) (err : Nat → Option String)
    (fs : Fs) (s : AppState) : (resolveWith dst err fs s).moves ≤ 1 := by
  cases hf : s.currentFile with
  | none => simp [resolveWith, hf]
  | some f =>
    by_cases hg : (!f.isEmpty && (fsLoc fs f).isSome) = true
    · by_cases hs : (safe_move err (some f) dst fs 6).success = true
      · simp [resolveWith, hf, hg, hs]
      · simp [resolveWith, hf, hg, hs]
    · simp [resolveWith, hf, hg]

/-- A resolve that performed its move holds no artifact afterwards. -/
theorem resolveWith_one_clears (dst : Dir) (err : Nat → Option String)
    (fs : Fs) (s : AppState) (h : (resolveWith dst err fs s).moves = 1) :
    (resolveWith dst err fs s).st.currentFile = none := by
  cases hf : s.currentFile with
  | none => simp [resolveWith, hf] at h
  | some f =>
    by_cases hg : (!f.isEmpty && (fsLoc fs f).isSome) = true
    · by_cases hs : (safe_move err (some f) dst fs 6).success = true
      · simp only [resolveWith, hf, hg, hs, if_true]
        exact (cancel_post_timeout_spec _).1
      · simp [resolveWith, hf, hg, hs] at h
    · simp [resolveWith, hf, hg] at h

/-- A resolve that performed no move changed neither the app state nor
the filesystem. -/
theorem resolveWith_zero_id (dst : Dir) (err : Nat → Option String)
    (fs : Fs) (s : AppState) (h : (resolveWith dst err fs s).moves = 0) :
    (resolveWith dst err fs s).st = s ∧ (resolveWith dst err fs s).fs = fs := by
  cases hf : s.currentFile with
  | none => simp [resolveWith, hf]
  | some f =>
    by_cases hg : (!f.isEmpty && (fsLoc fs f).isSome) = true
    · by_cases hs : (safe_move err (some f) dst fs 6).success = true
      · simp [resolveWith, hf, hg, hs] at h
      · have hs' : (safe_move err (some f) dst fs 6).success = false :=
          Bool.eq_false_iff.mpr hs
        have hfs := safe_move_fail_fs err (some f) dst fs 6 hs'
        simp [resolveWith, hf, hg, hs, hfs]
    · simp [resolveWith, hf, hg]

/-- A tick that fires the expiry branch closes the disposition: either
the artifact reference is cleared, or the referenced file is not on
disk. -/
theorem tick_expired_closed (err : Nat → Option String) (fs : Fs)
    (s : AppState) (h : s.postTimeoutLeft - 1 ≤ 0) :
    dispositionClosed (post_timeout_tick err fs s).fs
      (post_timeout_tick err fs s).st := by
  cases hf : s.currentFile with
  | none =>
    simp only [post_timeout_tick, hf, if_pos h]
    unfold dispositionClosed
    rw [(cancel_post_timeout_spec _).1]
    simp
  | some f =>
    by_cases hg : (!f.isEmpty && (fsLoc fs f).isSome) = true
    · simp only [post_timeout_tick, hf, if_pos h, hg, if_true]
      unfold dispositionClosed
      rw [(cancel_post_timeout_spec _).1]
      simp
    · have hg' : (!f.isEmpty && (fsLoc fs f).isSome) = false :=
        Bool.eq_false_iff.mpr hg
      simp only [post_timeout_tick, hf, if_pos h, hg']
      rw [if_neg Bool.false_ne_true]
      unfold dispositionClosed
      rw [(cancel_post_timeout_spec _).1]
      dsimp only
      rcases Bool.and_eq_false_iff.mp hg' with h1 | h2
      · exact Or.inl (by simpa using h1)
      · exact Or.inr (by
          cases hl : fsLoc fs f
          · rfl
          · rw [hl] at h2; simp at h2)

/-- Closes the disposition when no artifact reference is held. -/
theorem dispositionClosed_of_none (fs : Fs) (s : AppState)
    (h : s.currentFile = none) : dispositionClosed fs s := by
  unfold dispositionClosed
  rw [h]
  exact trivial

/-! Claim theorems. -/

/-- C1 counterexample: after the 60-second wait loop the supervisor only
issues a graceful terminate and a 2-second bounded wait (lines 308-312
of video_capture.py); no kill is ever issued, so a process that ignores
the terminate request is still alive after the grace period — the claim
that it is forcibly killed is false. -/
theorem record_supervision_no_kill_cx :
    SupervisorAct.kill ∉ postLoopEscalation true ∧
      processAliveAfterEscalation true false = true := by decide

/-- C1 (amended): for a recording that reaches the maximum duration
(the recording flag stays set and the encoder stays alive), the
supervision loop exits at exactly 60 seconds (tick 600 of the 0.1-second
poll), the encoder is asked to terminate gracefully and is awaited for
at most 2 seconds; no forcible kill is issued on any path, so only a
process that honours the terminate request is guaranteed dead after the
grace period. -/
theorem record_supervision_bound_amended :
    recordWaitLoop (fun _ => true) (fun _ => true) 601 0
        = some (MAX_RECORD_SECONDS * 10) ∧
      postLoopEscalation true
        = [SupervisorAct.terminate, SupervisorAct.waitUpTo 2] ∧
      (∀ b : Bool, SupervisorAct.kill ∉ postLoopEscalation b) ∧
      processAliveAfterEscalation true true = false := by
  refine ⟨by decide, rfl, ?_, rfl⟩
  intro b
  cases b <;> decide

/-- C2 counterexample: in the AwaitingDisposition state actually reached
by running the record-worker tail after a successful recording,
`start_recording_thread` spawns a new record worker (the guard at line
283 only checks the recording flag, which is false again), contradicting
the claim that start in AwaitingDisposition is a rejected no-op. -/
theorem start_in_awaiting_launches_cx :
    phase stAwaiting = Phase.AwaitingDisposition ∧
      (start_recording_thread stAwaiting).2 = true := by decide

/-- C2 (amended): the start operation is gated only on the recording
flag: while Recording it is a rejected no-op that launches no worker,
but whenever the flag is clear — in Idle and also in
AwaitingDisposition — it launches a new record worker. -/
theorem start_gated_only_by_recording (s : AppState) :
    (s.recording = true → start_recording_thread s = (s, false)) ∧
      (s.recording = false → start_recording_thread s = (s, true)) := by
  constructor <;> intro h <;> simp [start_recording_thread, h]

/-- C2 witness: the gate evaluated in the Recording and
AwaitingDisposition fixture states. -/
theorem start_gated_only_by_recording_witness :
    start_recording_thread stRecording = (stRecording, false) ∧
      start_recording_thread stAwaiting = (stAwaiting, true) :=
  ⟨(start_gated_only_by_recording stRecording).1 rfl,
   (start_gated_only_by_recording stAwaiting).2 (by decide)⟩

/-- C3 counterexample: when the encoder produced no file, the worker
tail returns to Idle without arming the disposition window, but the
surfaced status is the generic `Recording finished` message and no
recording-failed indication is emitted — contradicting the claim that a
recording-failed status is surfaced. -/
theorem no_file_status_cx :
    (record_worker_tail fsEmpty stRecording).st.status = "Recording finished" ∧
      phase (record_worker_tail fsEmpty stRecording).st = Phase.Idle ∧
      (record_worker_tail fsEmpty stRecording).st.postTimeoutJob = false ∧
      LogEvent.recordingFailed ∉ (record_worker_tail fsEmpty stRecording).logs := by
  decide

/-- C3 (amended): when a recording ends, the controller enters
AwaitingDisposition (enables approve/reject/play and arms the full
disposition window) exactly when the output file exists on disk; when
no file was produced it returns directly to Idle without arming the
window, surfacing the generic `Recording finished` status rather than a
recording-failed status. -/
theorem record_end_disposition_gate (fs : Fs) (s : AppState) (f : String)
    (hf : s.currentFile = some f) (hne : f.isEmpty = false) :
    ((fsLoc fs f).isSome = true →
        phase (record_worker_tail fs s).st = Phase.AwaitingDisposition ∧
          (record_worker_tail fs s).st.approveEnabled = true ∧
          (record_worker_tail fs s).st.rejectEnabled = true ∧
          (record_worker_tail fs s).st.playEnabled = true ∧
          (record_worker_tail fs s).st.postTimeoutLeft = POST_RECORD_TIMEOUT) ∧
      (fsLoc fs f = none → s.postTimeoutJob = false →
        phase (record_worker_tail fs s).st = Phase.Idle ∧
          (record_worker_tail fs s).st.postTimeoutJob = false ∧
          (record_worker_tail fs s).st.status = "Recording finished" ∧
          LogEvent.recordingFailed ∉ (record_worker_tail fs s).logs ∧
          (record_worker_tail fs s).st.recording = false) := by
  constructor
  · intro hl
    by_cases hjob : s.postTimeoutJob = true
    · simp [record_worker_tail, start_post_timeout, cancel_post_timeout, phase,
            hf, hne, hl, hjob]
    · have hjob' : s.postTimeoutJob = false := Bool.eq_false_iff.mpr hjob
      simp [record_worker_tail, start_post_timeout, cancel_post_timeout, phase,
            hf, hne, hl, hjob']
  · intro hl hjob
    simp [record_worker_tail, phase, hf, hne, hl, hjob]

/-- C3 witness: the gate evaluated on the recording fixture, with the
artifact present and absent. -/
theorem record_end_disposition_gate_witness :
    (phase (record_worker_tail fsRec1 stRecording).st = Phase.AwaitingDisposition ∧
        (record_worker_tail fsRec1 stRecording).st.approveEnabled = true ∧
        (record_worker_tail fsRec1 stRecording).st.rejectEnabled = true ∧
        (record_worker_tail fsRec1 stRecording).st.playEnabled = true ∧
        (record_worker_tail fsRec1 stRecording).st.postTimeoutLeft
          = POST_RECORD_TIMEOUT) ∧
      (phase (record_worker_tail fsEmpty stRecording).st = Phase.Idle ∧
        (record_worker_tail fsEmpty stRecording).st.postTimeoutJob = false ∧
        (record_worker_tail fsEmpty stRecording).st.status = "Recording finished" ∧
        LogEvent.recordingFailed ∉ (record_worker_tail fsEmpty stRecording).logs ∧
        (record_worker_tail fsEmpty stRecording).st.recording = false) :=
  ⟨(record_end_disposition_gate fsRec1 stRecording "recording_1.mp4" rfl rfl).1
      (by decide),
   (record_end_disposition_gate fsEmpty stRecording "recording_1.mp4" rfl rfl).2
      rfl rfl⟩

/-- C10: a `safe_move` call whose source is None, the empty string, or a
file that does not exist returns failure immediately: no move attempt is
performed, no back-off sleep happens, and no log line is written. -/
theorem safe_move_precheck_noop (err : Nat → Option String) (d : Dir)
    (fs : Fs) (s : String) (habs : fsLoc fs s = none) :
    safe_move err none d fs 6 = ⟨false, fs, [], 0, 0⟩ ∧
      safe_move err (some "") d fs 6 = ⟨false, fs, [], 0, 0⟩ ∧
      safe_move err (some s) d fs 6 = ⟨false, fs, [], 0, 0⟩ := by
  refine ⟨rfl, by simp [safe_move, show ("" : String).isEmpty = true from rfl], ?_⟩
  simp [safe_move, habs]

/-- C10 witness: the precheck evaluated at a missing file name over the
single-artifact fixture filesystem. -/
theorem safe_move_precheck_noop_witness :
    safe_move errAllLocked none Dir.approved fsRec1 6 = ⟨false, fsRec1, [], 0, 0⟩ ∧
      safe_move errAllLocked (some "") Dir.approved fsRec1 6
        = ⟨false, fsRec1, [], 0, 0⟩ ∧
      safe_move errAllLocked (some "ghost.mp4") Dir.approved fsRec1 6
        = ⟨false, fsRec1, [], 0, 0⟩ :=
  safe_move_precheck_noop errAllLocked Dir.approved fsRec1 "ghost.mp4" (by decide)

/-- Fixture filesystem for the `safe_move` retry scenarios. -/
def fsT : Fs := [("f.mp4", Dir.inbound)]

/-- C4: the `safe_move` bounded-retry contract: failure is returned only
after all 6 attempts are exhausted and leaves the source file in its
original directory; every failed attempt is logged with its attempt
number and error; each failed attempt is followed by one 400 ms back-off
sleep; under the transient-lock scenario (first 2 attempts fail, 3rd
succeeds) the call succeeds with exactly 3 log lines; under permanent
failure all 6 attempts fail and the filesystem is unchanged. -/
theorem safe_move_retry_contract (err : Nat → Option String) (s : String)
    (d : Dir) (fs : Fs) (h1 : s.isEmpty = false)
    (h2 : (fsLoc fs s).isSome = true) :
    ((safe_move err (some s) d fs 6).success = false →
        (safe_move err (some s) d fs 6).attempts = 6 ∧
          (safe_move err (some s) d fs 6).fs = fs) ∧
      (∀ i e, i < (safe_move err (some s) d fs 6).attempts → err i = some e →
        LogEvent.moveAttemptFailed (i + 1) e
          ∈ (safe_move err (some s) d fs 6).logs) ∧
      ((safe_move err (some s) d fs 6).success = false →
        (safe_move err (some s) d fs 6).sleeps
          = (safe_move err (some s) d fs 6).attempts) ∧
      ((safe_move err (some s) d fs 6).success = true →
        (safe_move err (some s) d fs 6).sleeps + 1
          = (safe_move err (some s) d fs 6).attempts) ∧
      safe_move errTransient (some "f.mp4") Dir.approved fsT 6
        = { success := true, fs := [("f.mp4", Dir.approved)],
            logs := [LogEvent.moveAttemptFailed 1 "locked",
                     LogEvent.moveAttemptFailed 2 "locked",
                     LogEvent.moved "f.mp4" Dir.approved],
            sleeps := 2, attempts := 3 } ∧
      safe_move errAllLocked (some "f.mp4") Dir.approved fsT 6
        = { success := false, fs := fsT,
            logs := [LogEvent.moveAttemptFailed 1 "locked",
                     LogEvent.moveAttemptFailed 2 "locked",
                     LogEvent.moveAttemptFailed 3 "locked",
                     LogEvent.moveAttemptFailed 4 "locked",
                     LogEvent.moveAttemptFailed 5 "locked",
                     LogEvent.moveAttemptFailed 6 "locked",
                     LogEvent.failedToMove "f.mp4"],
            sleeps := 6, attempts := 6 } := by
  have hrun := safe_move_run err s d fs h1 h2
  refine ⟨?_, ?_, ?_, ?_, by decide, by decide⟩
  · intro hfail
    rw [hrun] at hfail ⊢
    exact moveLoop_fail_spec err s d fs 6 0 hfail
  · intro i e hi he
    rw [hrun] at hi ⊢
    have hm := moveLoop_logMem err s d fs 6 0 i e hi (by simpa using he)
    simpa using hm
  · intro hfail
    rw [hrun] at hfail ⊢
    exact (moveLoop_sleeps err s d fs 6 0).2 hfail
  · intro hsucc
    rw [hrun] at hsucc ⊢
    exact (moveLoop_sleeps err s d fs 6 0).1 hsucc

/-- C4 witness: the contract applied to the permanently locked scenario
over the fixture filesystem. -/
theorem safe_move_retry_contract_witness :
    (safe_move errAllLocked (some "f.mp4") Dir.approved fsT 6).attempts = 6 ∧
      (safe_move errAllLocked (some "f.mp4") Dir.approved fsT 6).fs = fsT :=
  (safe_move_retry_contract errAllLocked "f.mp4" Dir.approved fsT (by decide)
    (by decide)).1 (by decide)

/-- C5: resolve (approve or reject, any destinations, any move-error
behaviour) is idempotent: two consecutive resolves perform at most one
successful artifact move; after a resolve that performed its move, a
second resolve is an exact no-op; and a resolve issued after an expiry
tick is an exact no-op. -/
theorem resolve_idempotent (d1 d2 : Dir) (err1 err2 : Nat → Option String)
    (fs : Fs) (s : AppState) :
    (resolveWith d1 err1 fs s).moves
        + (resolveWith d2 err2 (resolveWith d1 err1 fs s).fs
            (resolveWith d1 err1 fs s).st).moves ≤ 1 ∧
      ((resolveWith d1 err1 fs s).moves = 1 →
        resolveWith d2 err2 (resolveWith d1 err1 fs s).fs
            (resolveWith d1 err1 fs s).st
          = ⟨(resolveWith d1 err1 fs s).st, (resolveWith d1 err1 fs s).fs,
             0, []⟩) ∧
      (s.postTimeoutLeft - 1 ≤ 0 →
        resolveWith d1 err1 (post_timeout_tick err2 fs s).fs
            (post_timeout_tick err2 fs s).st
          = ⟨(post_timeout_tick err2 fs s).st, (post_timeout_tick err2 fs s).fs,
             0, []⟩) := by
  refine ⟨?_, ?_, ?_⟩
  · have hle1 := resolveWith_moves_le_one d1 err1 fs s
    rcases Nat.lt_or_ge (resolveWith d1 err1 fs s).moves 1 with hm | hm
    · have hle2 := resolveWith_moves_le_one d2 err2 (resolveWith d1 err1 fs s).fs
        (resolveWith d1 err1 fs s).st
      omega
    · have hm1 : (resolveWith d1 err1 fs s).moves = 1 := by omega
      have hcl := resolveWith_one_clears d1 err1 fs s hm1
      have h2 := resolveWith_closed d2 err2 (resolveWith d1 err1 fs s).fs
        (resolveWith d1 err1 fs s).st
        (dispositionClosed_of_none _ _ hcl)
      rw [hm1, h2]
      simp
  · intro hm1
    have hcl := resolveWith_one_clears d1 err1 fs s hm1
    exact resolveWith_closed d2 err2 _ _ (dispositionClosed_of_none _ _ hcl)
  · intro hexp
    exact resolveWith_closed d1 err1 _ _ (tick_expired_closed err2 fs s hexp)

/-- C5 witness: approve then reject from the reached awaiting state, and
a resolve after the expiry tick of the last countdown second. -/
theorem resolve_idempotent_witness :
    (resolveWith Dir.approved errNone fsRec1 stAwaiting).moves
        + (resolveWith Dir.deleteDaily errNone
            (resolveWith Dir.approved errNone fsRec1 stAwaiting).fs
            (resolveWith Dir.approved errNone fsRec1 stAwaiting).st).moves ≤ 1 ∧
      resolveWith Dir.deleteDaily errNone
          (resolveWith Dir.approved errNone fsRec1 stAwaiting).fs
          (resolveWith Dir.approved errNone fsRec1 stAwaiting).st
        = ⟨(resolveWith Dir.approved errNone fsRec1 stAwaiting).st,
           (resolveWith Dir.approved errNone fsRec1 stAwaiting).fs, 0, []⟩ ∧
      resolveWith Dir.approved errNone
          (post_timeout_tick errNone fsRec1 stLastSecond).fs
          (post_timeout_tick errNone fsRec1 stLastSecond).st
        = ⟨(post_timeout_tick errNone fsRec1 stLastSecond).st,
           (post_timeout_tick errNone fsRec1 stLastSecond).fs, 0, []⟩ :=
  ⟨(resolve_idempotent Dir.approved Dir.deleteDaily errNone errNone fsRec1
      stAwaiting).1,
   (resolve_idempotent Dir.approved Dir.deleteDaily errNone errNone fsRec1
      stAwaiting).2.1 (by decide),
   (resolve_idempotent Dir.approved Dir.deleteDaily errNone errNone fsRec1
      stLastSecond).2.2 (by decide)⟩

/-- C6: while the disposition timer is armed on an existing artifact,
a reset restarts the countdown from the full 30-second window (it is
exactly a `start_post_timeout`); a reset arriving after an expiry tick
is a no-op. -/
theorem reset_post_timeout_contract (fs : Fs) (s : AppState) (f : String)
    (err : Nat → Option String) :
    (s.currentFile = some f → f.isEmpty = false → (fsLoc fs f).isSome = true →
        reset_post_timeout fs s = start_post_timeout s ∧
          (reset_post_timeout fs s).postTimeoutLeft = POST_RECORD_TIMEOUT ∧
          (reset_post_timeout fs s).postTimeoutJob = true ∧
          (reset_post_timeout fs s).status = statusAwaiting POST_RECORD_TIMEOUT) ∧
      (s.postTimeoutLeft - 1 ≤ 0 →
        reset_post_timeout (post_timeout_tick err fs s).fs
            (post_timeout_tick err fs s).st
          = (post_timeout_tick err fs s).st) := by
  constructor
  · intro hf hne hl
    have hr : reset_post_timeout fs s = start_post_timeout s := by
      simp [reset_post_timeout, hf, hne, hl]
    refine ⟨hr, ?_, ?_, ?_⟩
    · rw [hr]; exact (start_post_timeout_spec s).2.2.2.2.2.2
    · rw [hr]; exact (start_post_timeout_spec s).2.2.2.2.2.1
    · rw [hr]; simp [start_post_timeout]
  · intro hexp
    exact reset_closed _ _ (tick_expired_closed err fs s hexp)

/-- C6 witness: a reset in the reached awaiting state, and a reset after
the expiry tick of the last countdown second. -/
theorem reset_post_timeout_contract_witness :
    (reset_post_timeout fsRec1 stAwaiting = start_post_timeout stAwaiting ∧
        (reset_post_timeout fsRec1 stAwaiting).postTimeoutLeft
          = POST_RECORD_TIMEOUT ∧
        (reset_post_timeout fsRec1 stAwaiting).postTimeoutJob = true ∧
        (reset_post_timeout fsRec1 stAwaiting).status
          = statusAwaiting POST_RECORD_TIMEOUT) ∧
      reset_post_timeout (post_timeout_tick errNone fsRec1 stLastSecond).fs
          (post_timeout_tick errNone fsRec1 stLastSecond).st
        = (post_timeout_tick errNone fsRec1 stLastSecond).st :=
  ⟨(reset_post_timeout_contract fsRec1 stAwaiting "recording_1.mp4" errNone).1
      (by decide) rfl (by decide),
   (reset_post_timeout_contract fsRec1 stLastSecond "recording_1.mp4" errNone).2
      (by decide)⟩

/-- Closed-form characterisation of the cleanup loop. -/
theorem cleanupLoop_spec (entries : List DirEntry) :
    (cleanupLoop entries).1
        = (entries.filter (fun e => e.delError.isNone)).length ∧
      (cleanupLoop entries).2.2
        = (entries.filter (fun e => e.delError.isSome)).map DirEntry.name ∧
      (cleanupLoop entries).2.1
        = entries.filterMap
            (fun e => e.delError.map (LogEvent.cleanupError e.name)) := by
  induction entries with
  | nil => exact ⟨rfl, rfl, rfl⟩
  | cons e rest ih =>
    obtain ⟨ih1, ih2, ih3⟩ := ih
    cases he : e.delError with
    | none =>
      simp [cleanupLoop, he, List.filter_cons, List.filterMap_cons, ih1, ih2, ih3]
    | some msg =>
      simp [cleanupLoop, he, List.filter_cons, List.filterMap_cons, ih1, ih2, ih3]

/-- C7: the startup purge deletes every entry of the delete_daily
directory whose deletion does not raise, whatever its kind (plain file
or subtree); a raising entry is logged with its error and the loop
continues to the next entry; the total number removed is counted and
logged; when nothing raises, every entry is removed. -/
theorem cleanup_delete_daily_contract (entries : List DirEntry) :
    (cleanup_delete_daily entries).1
        = (entries.filter (fun e => e.delError.isNone)).length ∧
      (cleanup_delete_daily entries).2.2
        = (entries.filter (fun e => e.delError.isSome)).map DirEntry.name ∧
      LogEvent.cleanupTotal (cleanup_delete_daily entries).1
          ∈ (cleanup_delete_daily entries).2.1 ∧
      (∀ e ∈ entries, ∀ msg, e.delError = some msg →
        LogEvent.cleanupError e.name msg ∈ (cleanup_delete_daily entries).2.1) ∧
      ((∀ e ∈ entries, e.delError = none) →
        (cleanup_delete_daily entries).1 = entries.length ∧
          (cleanup_delete_daily entries).2.2 = []) := by
  obtain ⟨h1, h2, h3⟩ := cleanupLoop_spec entries
  refine ⟨h1, h2, ?_, ?_, ?_⟩
  · simp [cleanup_delete_daily]
  · intro e he msg hmsg
    have hm : LogEvent.cleanupError e.name msg ∈ (cleanupLoop entries).2.1 := by
      rw [h3]
      exact List.mem_filterMap.mpr ⟨e, he, by simp [hmsg]⟩
    simp only [cleanup_delete_daily, List.mem_append]
    exact Or.inl hm
  · intro hall
    have hfil : entries.filter (fun e => e.delError.isNone) = entries :=
      List.filter_eq_self.mpr (fun a ha => by simp [hall a ha])
    have hfil2 : (entries.filter (fun e => e.delError.isSome)) = [] := by
      rcases hfe : entries.filter (fun e => e.delError.isSome) with _ | ⟨a, rest⟩
      · exact hfe
      · have ha : a ∈ entries.filter (fun e => e.delError.isSome) := by
          rw [hfe]; exact List.mem_cons_self a rest
        have ha2 := List.of_mem_filter ha
        have ha3 := hall a (List.mem_of_mem_filter ha)
        rw [ha3] at ha2
        simp at ha2
    constructor
    · show (cleanupLoop entries).1 = entries.length
      rw [h1, hfil]
    · show (cleanupLoop entries).2.2 = []
      rw [h2, hfil2]
      rfl

/-- Cleanup fixture: plain files and a subtree, one raising entry. -/
def entriesMixed : List DirEntry :=
  [⟨"a.mp4", EntryKind.file, none⟩, ⟨"sub", EntryKind.dir, none⟩,
   ⟨"locked.mp4", EntryKind.file, some "eperm"⟩,
   ⟨"b.mp4", EntryKind.file, none⟩]

/-- Cleanup fixture: a file and a subtree, nothing raising. -/
def entriesOk : List DirEntry :=
  [⟨"x.mp4", EntryKind.file, none⟩, ⟨"d", EntryKind.dir, none⟩]

/-- C7 witness: the purge contract applied to the two fixtures. -/
theorem cleanup_delete_daily_contract_witness :
    (cleanup_delete_daily entriesMixed).1 = 3 ∧
      LogEvent.cleanupError "locked.mp4" "eperm"
          ∈ (cleanup_delete_daily entriesMixed).2.1 ∧
      LogEvent.cleanupTotal (cleanup_delete_daily entriesMixed).1
          ∈ (cleanup_delete_daily entriesMixed).2.1 ∧
      (cleanup_delete_daily entriesOk).1 = entriesOk.length ∧
      (cleanup_delete_daily entriesOk).2.2 = [] :=
  ⟨(cleanup_delete_daily_contract entriesMixed).1.trans (by decide),
   (cleanup_delete_daily_contract entriesMixed).2.2.2.1
      ⟨"locked.mp4", EntryKind.file, some "eperm"⟩ (by decide) "eperm" rfl,
   (cleanup_delete_daily_contract entriesMixed).2.2.1,
   ((cleanup_delete_daily_contract entriesOk).2.2.2.2 (by decide)).1,
   ((cleanup_delete_daily_contract entriesOk).2.2.2.2 (by decide)).2⟩

/-- C8: device enumeration never fails hard: whenever the parsed
candidate list of a category is empty, `detect_devices_once` yields the
single-element hardcoded fallback list for that category; when the
enumeration query itself fails (ffmpeg missing, empty stderr) both
fallback lists are returned, and a startup with no persisted selection
resolves to exactly the two hardcoded fallback device names. -/
theorem detect_devices_fallback (stderrText : String) :
    ((parse_dshow_devices stderrText).1 = [] →
        (detect_devices_once stderrText).1 = [FALLBACK_VIDEO_DEVICE]) ∧
      ((parse_dshow_devices stderrText).2 = [] →
        (detect_devices_once stderrText).2 = [FALLBACK_AUDIO_DEVICE]) ∧
      detect_devices_once (ffmpeg_list_devices false stderrText)
        = ([FALLBACK_VIDEO_DEVICE], [FALLBACK_AUDIO_DEVICE]) ∧
      startupDevices ⟨none, none⟩ (ffmpeg_list_devices false stderrText)
        = (FALLBACK_VIDEO_DEVICE, FALLBACK_AUDIO_DEVICE) := by
  refine ⟨?_, ?_, ?_, ?_⟩
  · intro h
    simp [detect_devices_once, h]
  · intro h
    simp [detect_devices_once, h]
  · show detect_devices_once ""
        = ([FALLBACK_VIDEO_DEVICE], [FALLBACK_AUDIO_DEVICE])
    decide
  · show startupDevices ⟨none, none⟩ ""
        = (FALLBACK_VIDEO_DEVICE, FALLBACK_AUDIO_DEVICE)
    decide

/-- C8 witness: the fallback evaluated at the empty enumeration
output. -/
theorem detect_devices_fallback_witness :
    (detect_devices_once "").1 = [FALLBACK_VIDEO_DEVICE] ∧
      (detect_devices_once "").2 = [FALLBACK_AUDIO_DEVICE] :=
  ⟨(detect_devices_fallback "").1 rfl, (detect_devices_fallback "").2.1 rfl⟩

/-- C9: when an approve or reject move fails on every attempt, the
operation leaves everything unchanged: the app state is exactly the
input state (so `currentFile` keeps its value, the approve/reject/play
buttons keep their states, and the pending countdown job is not
cancelled), the filesystem is unchanged, and no move was performed. -/
theorem resolve_move_failure_preserves_state (dst : Dir)
    (err : Nat → Option String) (fs : Fs) (s : AppState) (f : String)
    (hf : s.currentFile = some f) (hne : f.isEmpty = false)
    (hex : (fsLoc fs f).isSome = true)
    (hfail : ∀ i, i < 6 → (err i).isSome = true) :
    (resolveWith dst err fs s).st = s ∧
      (resolveWith dst err fs s).fs = fs ∧
      (resolveWith dst err fs s).moves = 0 ∧
      (resolveWith dst err fs s).st.currentFile = some f := by
  have hrun := safe_move_run err f dst fs hne hex
  have hs' : (safe_move err (some f) dst fs 6).success = false := by
    rw [hrun]
    exact moveLoop_allFail err f dst fs 6 0 (fun i hi => by simpa using hfail i hi)
  have hfs := safe_move_fail_fs err (some f) dst fs 6 hs'
  have hg : (!f.isEmpty && (fsLoc fs f).isSome) = true := by simp [hne, hex]
  refine ⟨?_, ?_, ?_, ?_⟩ <;> simp [resolveWith, hf, hg, hs', hfs]

/-- C9 witness: a permanently failing approve from the reached awaiting
state. -/
theorem resolve_move_failure_preserves_state_witness :
    (resolveWith Dir.approved errAllLocked fsRec1 stAwaiting).st = stAwaiting ∧
      (resolveWith Dir.approved errAllLocked fsRec1 stAwaiting).fs = fsRec1 ∧
      (resolveWith Dir.approved errAllLocked fsRec1 stAwaiting).moves = 0 ∧
      (resolveWith Dir.approved errAllLocked fsRec1 stAwaiting).st.currentFile
        = some "recording_1.mp4" :=
  resolve_move_failure_preserves_state Dir.approved errAllLocked fsRec1
    stAwaiting "recording_1.mp4" (by decide) rfl (by decide) (fun i _ => rfl)

end Videorecorder
